import Mathlib

/-!
Verification of the CORS static-file server in `src/server.py`.

The script subclasses the standard static-file request handler, overriding
only `end_headers` (which appends three CORS/cache headers before the header
block is finalized) and `do_OPTIONS` (blanket `200 OK` preflight response).
The inherited static-file behavior (GET/HEAD path resolution, error statuses,
directory handling, unsupported-method dispatch) is not part of the
repository's own sources, so it is modelled from the specification, with each
such definition marked `Modelled from the spec:` in its doc comment.

Response construction is embedded as explicit state passing over `HState`:
`send_response` records the status line, `send_header` appends to a header
buffer, a finalization hook flushes the buffer, and body bytes are written
afterwards.  The overridden `end_headers` and `do_OPTIONS` are translated
directly from `src/server.py`.
-/

namespace Server

/-- One response header: a name/value pair. -/
structure Header where
  name : String
  value : String
deriving DecidableEq, Repr

/-- Transient per-response handler state: the status code recorded by
`send_response`, the buffered headers, whether the header block has been
finalized, and the body bytes written so far. -/
structure HState where
  status : Option Nat
  buffer : List Header
  finalized : Bool
  body : List Nat
deriving DecidableEq, Repr

/-- Fresh state at the start of handling one request. -/
def HState.init : HState := ⟨none, [], false, []⟩

/-- Record the response status code. -/
def send_response (st : HState) (code : Nat) : HState :=
  { st with status := some code }

/-- Append one header to the (not yet finalized) header buffer. -/
def send_header (st : HState) (k v : String) : HState :=
  { st with buffer := st.buffer ++ [⟨k, v⟩] }

/-- Base-class header finalization: transmit the buffered header block.
In this embedding the buffer is kept as the emitted block and the state is
marked finalized. -/
def base_end_headers (st : HState) : HState :=
  { st with finalized := true }

/-- Append body bytes (after the header block has been finalized). -/
def writeBody (c : List Nat) (st : HState) : HState :=
  { st with body := st.body ++ c }

/-- Overridden `end_headers` from `src/server.py` lines 14-18: append the
three CORS/cache headers to the buffer, then finalize via the base class. -/
def end_headers (st : HState) : HState :=
  base_end_headers
    (send_header
      (send_header
        (send_header st "Access-Control-Allow-Origin" "*")
        "Access-Control-Allow-Methods" "GET, OPTIONS")
      "Cache-Control" "no-store, no-cache, must-revalidate")

/-- The three headers injected by the overridden `end_headers`, in the order
they are appended. -/
def injectedHeaders : List Header :=
  [⟨"Access-Control-Allow-Origin", "*"⟩,
   ⟨"Access-Control-Allow-Methods", "GET, OPTIONS"⟩,
   ⟨"Cache-Control", "no-store, no-cache, must-revalidate"⟩]

/-- Overridden `do_OPTIONS` from `src/server.py` lines 20-22: status 200,
finalize headers, write no body. -/
def do_OPTIONS (st : HState) : HState :=
  end_headers (send_response st 200)

/-- A filesystem entry a request path can resolve to.  A regular file carries
a readability flag and its byte contents; a directory carries the contents of
its index file when one exists, and the bytes of the auto-generated HTML
listing page otherwise (the listing's exact HTML is non-normative). -/
inductive Entry
  | file (readable : Bool) (contents : List Nat)
  | dir (index : Option (List Nat)) (listing : List Nat)
deriving DecidableEq, Repr

/-- A root-directory tree, as the partial map from request paths to the entry
they resolve to; `none` covers both missing paths and paths resolving outside
the root. -/
def FS := String → Option Entry

/-- Modelled from the spec: Content-Type inferred from the file extension,
defaulting to a generic binary/octet type for unknown extensions.  The
extension table itself is non-normative; one known extension suffices. -/
def guessType (path : String) : String :=
  if path.endsWith ".html" then "text/html" else "application/octet-stream"

/-- Modelled from the spec: the default generated error body.  Its exact
bytes are non-normative; it is modelled as the decimal digits of the status
code. -/
def errorBody (code : Nat) : List Nat :=
  (toString code).toList.map Char.toNat

/-- Modelled from the spec: the header part of the base handler's error
response — record the status, set a Content-Type for the generated error
page, and finalize the headers through the handler's finalization hook. -/
def sendErrorHead (finalize : HState → HState) (code : Nat) (st : HState) : HState :=
  finalize (send_header (send_response st code) "Content-Type" "text/html;charset=utf-8")

/-- Modelled from the spec: a full error response including the default
generated error body. -/
def sendErrorFull (finalize : HState → HState) (code : Nat) (st : HState) : HState :=
  writeBody (errorBody code) (sendErrorHead finalize code st)

/-- Modelled from the spec: the header part of the base handler's GET/HEAD
success response for content `c` of type `ct` — status 200, Content-Type,
Content-Length equal to the content size, headers finalized through the
handler's finalization hook. -/
def sendContentHead (finalize : HState → HState) (ct : String) (c : List Nat)
    (st : HState) : HState :=
  finalize (send_header (send_header (send_response st 200)
    "Content-Type" ct) "Content-Length" (toString c.length))

/-- Modelled from the spec: the inherited static-file GET handler,
parameterized by the header-finalization hook so that the base behavior and
the CORS-overridden behavior are instances of the same definition.
Resolution of the request path against the root: a missing path (or one
outside the root) gives 404; an unreadable file gives 403; a readable file is
served with status 200, Content-Length its size and body its exact contents;
a directory serves its index file when one exists and the auto-generated
listing otherwise. -/
def base_do_GET (finalize : HState → HState) (fs : FS) (path : String)
    (st : HState) : HState :=
  match fs path with
  | none => sendErrorFull finalize 404 st
  | some (Entry.file readable contents) =>
      if readable then
        writeBody contents (sendContentHead finalize (guessType path) contents st)
      else sendErrorFull finalize 403 st
  | some (Entry.dir (some idx) _) =>
      writeBody idx (sendContentHead finalize "text/html" idx st)
  | some (Entry.dir none listing) =>
      writeBody listing (sendContentHead finalize "text/html;charset=utf-8" listing st)

/-- Modelled from the spec: the inherited HEAD handler — identical headers to
GET, but no body bytes are written (also for error responses). -/
def base_do_HEAD (finalize : HState → HState) (fs : FS) (path : String)
    (st : HState) : HState :=
  match fs path with
  | none => sendErrorHead finalize 404 st
  | some (Entry.file readable contents) =>
      if readable then sendContentHead finalize (guessType path) contents st
      else sendErrorHead finalize 403 st
  | some (Entry.dir (some idx) _) => sendContentHead finalize "text/html" idx st
  | some (Entry.dir none listing) =>
      sendContentHead finalize "text/html;charset=utf-8" listing st

/-- Modelled from the spec: method dispatch of the base handler.  The class
defines `do_OPTIONS` (from the source) and inherits `do_GET`/`do_HEAD`; a
request whose method has no handler is answered by the base dispatch loop
with a 501 Unsupported-method error.  Every path finalizes headers through
the overridden `end_headers`, so header injection applies uniformly to
success and error responses alike. -/
def handle (fs : FS) (method path : String) : HState :=
  if method = "OPTIONS" then do_OPTIONS HState.init
  else if method = "GET" then base_do_GET end_headers fs path HState.init
  else if method = "HEAD" then base_do_HEAD end_headers fs path HState.init
  else sendErrorFull end_headers 501 HState.init

/-- The unmodified base handler's response for GET/HEAD: the same
static-file handling, finalized by the base `end_headers` (no injection). -/
def baseHandle (fs : FS) (method path : String) : HState :=
  if method = "GET" then base_do_GET base_end_headers fs path HState.init
  else base_do_HEAD base_end_headers fs path HState.init

/-- Outcome of a finished process run: lines printed and the exit status. -/
structure ProcessOutcome where
  printed : List String
  exitStatus : Nat
deriving DecidableEq, Repr

/-- How the blocking serve loop in `main` ends: an interrupt signal
(KeyboardInterrupt) or some other exception carrying a message. -/
inductive ServeEvent
  | keyboardInterrupt
  | failure (msg : String)
deriving DecidableEq, Repr

/-- The `try`/`except` around `serve_forever` in `src/server.py` lines 34-37:
a KeyboardInterrupt is caught, the shutdown message is printed and `main`
returns normally, so the process exits with status 0; any other exception
propagates out of `main`. -/
def runServerLoop : ServeEvent → Except String ProcessOutcome
  | ServeEvent.keyboardInterrupt => Except.ok ⟨["\nServer stopped."], 0⟩
  | ServeEvent.failure msg => Except.error msg

/-- The overridden `end_headers` appends exactly the three injected headers
to the buffer and marks the block finalized, touching nothing else. -/
theorem end_headers_eq (st : HState) :
    end_headers st =
      { st with buffer := st.buffer ++ injectedHeaders, finalized := true } := by
  simp [end_headers, base_end_headers, send_header, injectedHeaders]

/-- Helper: a state finalized by the overridden `end_headers` and then
extended with body bytes has header block `pre ++ injectedHeaders`. -/
theorem split_of_end_headers_write (st : HState) (c : List Nat) :
    ∃ pre, (writeBody c (end_headers st)).buffer = pre ++ injectedHeaders ∧
      (writeBody c (end_headers st)).finalized = true :=
  ⟨st.buffer, by simp [writeBody, end_headers_eq]⟩

/-- Helper: a state finalized by the overridden `end_headers` has header
block `pre ++ injectedHeaders`. -/
theorem split_of_end_headers (st : HState) :
    ∃ pre, (end_headers st).buffer = pre ++ injectedHeaders ∧
      (end_headers st).finalized = true :=
  ⟨st.buffer, by simp [end_headers_eq]⟩

/-- Helper: every response produced by `handle` has a finalized header block
of the form `pre ++ injectedHeaders`, with `pre` exactly the headers set by
the request-handling code before finalization. -/
theorem handle_buffer_split (fs : FS) (method path : String) :
    ∃ pre, (handle fs method path).buffer = pre ++ injectedHeaders ∧
      (handle fs method path).finalized = true := by
  unfold handle
  by_cases h1 : method = "OPTIONS"
  · rw [if_pos h1]
    exact split_of_end_headers _
  rw [if_neg h1]
  by_cases h2 : method = "GET"
  · rw [if_pos h2]
    rcases hfs : fs path with _ | (⟨r, c⟩ | ⟨i, l⟩)
    · simp only [base_do_GET, hfs]
      exact split_of_end_headers_write _ _
    · simp only [base_do_GET, hfs]
      cases r
      · simp only [Bool.false_eq_true, if_false]
        exact split_of_end_headers_write _ _
      · simp only [if_true]
        exact split_of_end_headers_write _ _
    · simp only [base_do_GET, hfs]
      cases i
      · exact split_of_end_headers_write _ _
      · exact split_of_end_headers_write _ _
  rw [if_neg h2]
  by_cases h3 : method = "HEAD"
  · rw [if_pos h3]
    rcases hfs : fs path with _ | (⟨r, c⟩ | ⟨i, l⟩)
    · simp only [base_do_HEAD, hfs]
      exact split_of_end_headers _
    · simp only [base_do_HEAD, hfs]
      cases r
      · simp only [Bool.false_eq_true, if_false]
        exact split_of_end_headers _
      · simp only [if_true]
        exact split_of_end_headers _
    · simp only [base_do_HEAD, hfs]
      cases i
      · exact split_of_end_headers _
      · exact split_of_end_headers _
  rw [if_neg h3]
  exact split_of_end_headers_write _ _

/-- Helper: dispatch of a GET request. -/
theorem handle_GET_eq (fs : FS) (path : String) :
    handle fs "GET" path = base_do_GET end_headers fs path HState.init := by
  unfold handle
  rw [if_neg (by decide), if_pos rfl]

/-- Helper: dispatch of a HEAD request. -/
theorem handle_HEAD_eq (fs : FS) (path : String) :
    handle fs "HEAD" path = base_do_HEAD end_headers fs path HState.init := by
  unfold handle
  rw [if_neg (by decide), if_neg (by decide), if_pos rfl]

/-- C1: every response the server sends, regardless of request method and of
status code, has a finalized header block containing
`Access-Control-Allow-Origin: *`, `Access-Control-Allow-Methods: GET, OPTIONS`
and `Cache-Control: no-store, no-cache, must-revalidate`, each with exactly
those values. -/
theorem every_response_has_cors_and_cache_headers (fs : FS) (method path : String) :
    (⟨"Access-Control-Allow-Origin", "*"⟩ : Header) ∈ (handle fs method path).buffer ∧
    (⟨"Access-Control-Allow-Methods", "GET, OPTIONS"⟩ : Header) ∈ (handle fs method path).buffer ∧
    (⟨"Cache-Control", "no-store, no-cache, must-revalidate"⟩ : Header) ∈ (handle fs method path).buffer := by
  obtain ⟨pre, hb, -⟩ := handle_buffer_split fs method path
  rw [hb]
  refine ⟨?_, ?_, ?_⟩ <;> simp [injectedHeaders]

/-- C2: every OPTIONS request, on any path and for any root tree, is answered
with status 200, an empty body, and a header block that is exactly the three
injected headers. -/
theorem options_any_path_200_empty_body (fs : FS) (path : String) :
    (handle fs "OPTIONS" path).status = some 200 ∧
    (handle fs "OPTIONS" path).body = [] ∧
    (handle fs "OPTIONS" path).buffer = injectedHeaders := by
  simp [handle, do_OPTIONS, end_headers_eq, send_response, HState.init, injectedHeaders]

/-- C6: on every request, success and error paths alike, the emitted header
block consists of the headers set by the request-handling code followed by
the three injected CORS/cache headers, appended at the finalization point. -/
theorem cors_injected_at_finalization_after_other_headers (fs : FS) (method path : String) :
    ∃ pre, (handle fs method path).buffer = pre ++ injectedHeaders ∧
      (handle fs method path).finalized = true :=
  handle_buffer_split fs method path

/-- C3: a GET or HEAD request whose path resolves to an existing but
unreadable regular file is answered 403 Forbidden. -/
theorem unreadable_file_403 (fs : FS) (path : String) (c : List Nat)
    (hf : fs path = some (Entry.file false c)) :
    (handle fs "GET" path).status = some 403 ∧
    (handle fs "HEAD" path).status = some 403 := by
  rw [handle_GET_eq, handle_HEAD_eq]
  simp only [base_do_GET, base_do_HEAD, hf, Bool.false_eq_true, if_false]
  constructor <;>
    simp [sendErrorFull, sendErrorHead, writeBody, end_headers_eq,
      send_header, send_response]

/-- C4: a GET request whose path resolves to an existing readable regular
file is answered 200 with body byte-identical to the file contents and a
Content-Length header equal to the file size. -/
theorem readable_file_served_exactly (fs : FS) (path : String) (c : List Nat)
    (hf : fs path = some (Entry.file true c)) :
    (handle fs "GET" path).status = some 200 ∧
    (handle fs "GET" path).body = c ∧
    (⟨"Content-Length", toString c.length⟩ : Header) ∈ (handle fs "GET" path).buffer := by
  rw [handle_GET_eq]
  simp only [base_do_GET, hf, if_true]
  refine ⟨?_, ?_, ?_⟩ <;>
    simp [sendContentHead, writeBody, end_headers_eq, send_header,
      send_response, HState.init]

/-- C5: a GET or HEAD request whose path resolves to nothing under the root
is answered 404 Not Found, and that error response still carries
`Access-Control-Allow-Origin: *`. -/
theorem missing_path_404_with_cors (fs : FS) (path : String)
    (hf : fs path = none) :
    (handle fs "GET" path).status = some 404 ∧
    (handle fs "HEAD" path).status = some 404 ∧
    (⟨"Access-Control-Allow-Origin", "*"⟩ : Header) ∈ (handle fs "GET" path).buffer ∧
    (⟨"Access-Control-Allow-Origin", "*"⟩ : Header) ∈ (handle fs "HEAD" path).buffer := by
  rw [handle_GET_eq, handle_HEAD_eq]
  simp only [base_do_GET, base_do_HEAD, hf]
  refine ⟨?_, ?_, ?_, ?_⟩ <;>
    simp [sendErrorFull, sendErrorHead, writeBody, end_headers_eq,
      send_header, send_response, injectedHeaders]

/-- C7: a GET request whose path resolves to a directory containing an index
file is answered 200 with the index file contents as the body, not the
auto-generated listing. -/
theorem directory_index_over_listing (fs : FS) (path : String)
    (idx listing : List Nat)
    (hf : fs path = some (Entry.dir (some idx) listing)) :
    (handle fs "GET" path).status = some 200 ∧
    (handle fs "GET" path).body = idx := by
  rw [handle_GET_eq]
  simp only [base_do_GET, hf]
  constructor <;>
    simp [sendContentHead, writeBody, end_headers_eq, send_header,
      send_response, HState.init]

/-- C8: when the serve loop is ended by a KeyboardInterrupt, the interrupt is
caught, the shutdown message is printed, and the process finishes normally
with exit status 0. -/
theorem interrupt_caught_prints_and_exits_zero :
    runServerLoop ServeEvent.keyboardInterrupt =
      Except.ok ⟨["\nServer stopped."], 0⟩ := rfl

/-- Helper: finalizing a state with the overridden `end_headers` instead of
the base one, then writing the same body, leaves status and body unchanged
and appends exactly the injected headers. -/
theorem cors_vs_base_write (st : HState) (c : List Nat) :
    (writeBody c (end_headers st)).status = (writeBody c (base_end_headers st)).status ∧
    (writeBody c (end_headers st)).body = (writeBody c (base_end_headers st)).body ∧
    (writeBody c (end_headers st)).buffer =
      (writeBody c (base_end_headers st)).buffer ++ injectedHeaders := by
  simp [writeBody, end_headers_eq, base_end_headers]

/-- Helper: finalizing a state with the overridden `end_headers` instead of
the base one leaves status and body unchanged and appends exactly the
injected headers. -/
theorem cors_vs_base (st : HState) :
    (end_headers st).status = (base_end_headers st).status ∧
    (end_headers st).body = (base_end_headers st).body ∧
    (end_headers st).buffer = (base_end_headers st).buffer ++ injectedHeaders := by
  simp [end_headers_eq, base_end_headers]

/-- C9: for GET and HEAD requests the server's response agrees with the
unmodified base static-file handler in status, body, and every header other
than the three injected ones, which are appended at the end: the only
behavioral difference is the injection, since only `end_headers` and
`do_OPTIONS` are overridden. -/
theorem refines_base_handler_up_to_injected_headers (fs : FS) (method path : String)
    (hm : method = "GET" ∨ method = "HEAD") :
    (handle fs method path).status = (baseHandle fs method path).status ∧
    (handle fs method path).body = (baseHandle fs method path).body ∧
    (handle fs method path).buffer =
      (baseHandle fs method path).buffer ++ injectedHeaders := by
  rcases hm with h | h <;> subst h
  · rw [handle_GET_eq]
    unfold baseHandle
    rw [if_pos rfl]
    rcases hfs : fs path with _ | (⟨r, c⟩ | ⟨i, l⟩)
    · simp only [base_do_GET, hfs]
      exact cors_vs_base_write _ _
    · simp only [base_do_GET, hfs]
      cases r
      · simp only [Bool.false_eq_true, if_false]
        exact cors_vs_base_write _ _
      · simp only [if_true]
        exact cors_vs_base_write _ _
    · simp only [base_do_GET, hfs]
      cases i
      · exact cors_vs_base_write _ _
      · exact cors_vs_base_write _ _
  · rw [handle_HEAD_eq]
    unfold baseHandle
    rw [if_neg (by decide)]
    rcases hfs : fs path with _ | (⟨r, c⟩ | ⟨i, l⟩)
    · simp only [base_do_HEAD, hfs]
      exact cors_vs_base _
    · simp only [base_do_HEAD, hfs]
      cases r
      · simp only [Bool.false_eq_true, if_false]
        exact cors_vs_base _
      · simp only [if_true]
        exact cors_vs_base _
    · simp only [base_do_HEAD, hfs]
      cases i
      · exact cors_vs_base _
      · exact cors_vs_base _

/-- C10: a request whose method is none of GET, HEAD and OPTIONS has no
handler; the dispatch answers it with a 501 Unsupported-method error, and
even that error response carries the three injected headers. -/
theorem unsupported_method_501_with_cors (fs : FS) (method path : String)
    (h1 : method ≠ "OPTIONS") (h2 : method ≠ "GET") (h3 : method ≠ "HEAD") :
    (handle fs method path).status = some 501 ∧
    (⟨"Access-Control-Allow-Origin", "*"⟩ : Header) ∈ (handle fs method path).buffer ∧
    (⟨"Access-Control-Allow-Methods", "GET, OPTIONS"⟩ : Header) ∈ (handle fs method path).buffer ∧
    (⟨"Cache-Control", "no-store, no-cache, must-revalidate"⟩ : Header) ∈ (handle fs method path).buffer := by
  unfold handle
  rw [if_neg h1, if_neg h2, if_neg h3]
  refine ⟨?_, ?_, ?_, ?_⟩ <;>
    simp [sendErrorFull, sendErrorHead, writeBody, end_headers_eq,
      send_header, send_response, injectedHeaders]

/-- Concrete root tree used by the witness theorems: one readable HTML file,
one unreadable file, one directory with an index file. -/
def fsDemo : FS := fun p =>
  if p = "/log-viewer.html" then some (Entry.file true [104, 105])
  else if p = "/secret.txt" then some (Entry.file false [115])
  else if p = "/docs" then some (Entry.dir (some [60, 62]) [108, 115, 116])
  else none

/-- Witness for C3 at the unreadable file of `fsDemo`. -/
theorem unreadable_file_403_witness :
    (handle fsDemo "GET" "/secret.txt").status = some 403 ∧
    (handle fsDemo "HEAD" "/secret.txt").status = some 403 :=
  unreadable_file_403 fsDemo "/secret.txt" [115] (by decide)

/-- Witness for C4 at the readable file of `fsDemo`. -/
theorem readable_file_served_exactly_witness :
    (handle fsDemo "GET" "/log-viewer.html").status = some 200 ∧
    (handle fsDemo "GET" "/log-viewer.html").body = [104, 105] ∧
    (⟨"Content-Length", toString ([104, 105] : List Nat).length⟩ : Header) ∈
      (handle fsDemo "GET" "/log-viewer.html").buffer :=
  readable_file_served_exactly fsDemo "/log-viewer.html" [104, 105] (by decide)

/-- Witness for C5 at a path missing from `fsDemo`. -/
theorem missing_path_404_with_cors_witness :
    (handle fsDemo "GET" "/does-not-exist.html").status = some 404 ∧
    (handle fsDemo "HEAD" "/does-not-exist.html").status = some 404 ∧
    (⟨"Access-Control-Allow-Origin", "*"⟩ : Header) ∈
      (handle fsDemo "GET" "/does-not-exist.html").buffer ∧
    (⟨"Access-Control-Allow-Origin", "*"⟩ : Header) ∈
      (handle fsDemo "HEAD" "/does-not-exist.html").buffer :=
  missing_path_404_with_cors fsDemo "/does-not-exist.html" (by decide)

/-- Witness for C7 at the directory of `fsDemo`, whose index file exists. -/
theorem directory_index_over_listing_witness :
    (handle fsDemo "GET" "/docs").status = some 200 ∧
    (handle fsDemo "GET" "/docs").body = [60, 62] :=
  directory_index_over_listing fsDemo "/docs" [60, 62] [108, 115, 116] (by decide)

/-- Witness for C9 at a GET request on `fsDemo`. -/
theorem refines_base_handler_witness :
    (handle fsDemo "GET" "/log-viewer.html").status =
      (baseHandle fsDemo "GET" "/log-viewer.html").status ∧
    (handle fsDemo "GET" "/log-viewer.html").body =
      (baseHandle fsDemo "GET" "/log-viewer.html").body ∧
    (handle fsDemo "GET" "/log-viewer.html").buffer =
      (baseHandle fsDemo "GET" "/log-viewer.html").buffer ++ injectedHeaders :=
  refines_base_handler_up_to_injected_headers fsDemo "GET" "/log-viewer.html" (Or.inl rfl)

/-- Witness for C10 at a POST request. -/
theorem unsupported_method_501_witness :
    (handle fsDemo "POST" "/log-viewer.html").status = some 501 ∧
    (⟨"Access-Control-Allow-Origin", "*"⟩ : Header) ∈
      (handle fsDemo "POST" "/log-viewer.html").buffer ∧
    (⟨"Access-Control-Allow-Methods", "GET, OPTIONS"⟩ : Header) ∈
      (handle fsDemo "POST" "/log-viewer.html").buffer ∧
    (⟨"Cache-Control", "no-store, no-cache, must-revalidate"⟩ : Header) ∈
      (handle fsDemo "POST" "/log-viewer.html").buffer :=
  unsupported_method_501_with_cors fsDemo "POST" "/log-viewer.html"
    (by decide) (by decide) (by decide)

end Server
